import Mathlib

/-!
# Verification of the fSpy importer core

A shallow embedding of the algorithmic core of `fspy_importer.py`:
the Euler-angle rotation math (`create_rotation_matrix`,
`rotation_matrix_to_euler`), the binary container parser
(`FSpyParser.parse`), the camera-transform derivation
(`FSpyParser.get_camera_transform`) and the intrinsics computations
performed in `PluginDialog.import_camera` / `PluginDialog.update_camera_info`.

Python floats are modelled by real numbers; JSON values by an inductive
`JValue` type with rational number leaves; byte streams by `List Nat`.
-/

open Real

noncomputable section

/-- `math.atan2 y x`, modelled through the principal argument of the complex
number with real part `x` and imaginary part `y` (range `(-π, π]`). -/
def atan2 (y x : ℝ) : ℝ := Complex.arg ⟨x, y⟩

/-- The X rotation matrix `rot_x` built inside `create_rotation_matrix`. -/
def rot_x (x : ℝ) : Matrix (Fin 3) (Fin 3) ℝ :=
  !![1, 0, 0;
     0, Real.cos x, -Real.sin x;
     0, Real.sin x, Real.cos x]

/-- The Y rotation matrix `rot_y` built inside `create_rotation_matrix`. -/
def rot_y (y : ℝ) : Matrix (Fin 3) (Fin 3) ℝ :=
  !![Real.cos y, 0, Real.sin y;
     0, 1, 0;
     -Real.sin y, 0, Real.cos y]

/-- The Z rotation matrix `rot_z` built inside `create_rotation_matrix`. -/
def rot_z (z : ℝ) : Matrix (Fin 3) (Fin 3) ℝ :=
  !![Real.cos z, -Real.sin z, 0;
     Real.sin z, Real.cos z, 0;
     0, 0, 1]

/-- `create_rotation_matrix(x, y, z)`: the source composes
`rot_z.dot(rot_y).dot(rot_x)`, i.e. `(Rz * Ry) * Rx`. -/
def create_rotation_matrix (x y z : ℝ) : Matrix (Fin 3) (Fin 3) ℝ :=
  rot_z z * rot_y y * rot_x x

/-- `rotation_matrix_to_euler(matrix)`: decomposes a 3x3 matrix into Euler
angles, with the singular branch taken when `sy < 1e-6` where
`sy = sqrt(m[0][0]^2 + m[1][0]^2)`. -/
def rotation_matrix_to_euler (m : Matrix (Fin 3) (Fin 3) ℝ) : ℝ × ℝ × ℝ :=
  if Real.sqrt (m 0 0 ^ 2 + m 1 0 ^ 2) < 1e-6 then
    (atan2 (-m 1 2) (m 1 1), atan2 (-m 2 0) (Real.sqrt (m 0 0 ^ 2 + m 1 0 ^ 2)), 0)
  else
    (atan2 (m 2 1) (m 2 2), atan2 (-m 2 0) (Real.sqrt (m 0 0 ^ 2 + m 1 0 ^ 2)),
      atan2 (m 1 0) (m 0 0))

end

/-- Helper: the complex number `⟨cos θ, sin θ⟩` written in `cos + sin * I` form. -/
theorem mk_cos_sin (θ : ℝ) :
    (⟨Real.cos θ, Real.sin θ⟩ : ℂ) = Complex.cos θ + Complex.sin θ * Complex.I := by
  apply Complex.ext <;>
    simp [Complex.add_re, Complex.add_im, Complex.mul_re, Complex.mul_im,
      Complex.cos_ofReal_re, Complex.sin_ofReal_re]

/-- `atan2 (sin θ) (cos θ) = θ` on the principal range. -/
theorem atan2_sin_cos {θ : ℝ} (hθ : θ ∈ Set.Ioc (-π) π) :
    atan2 (Real.sin θ) (Real.cos θ) = θ := by
  rw [atan2, mk_cos_sin]
  exact Complex.arg_cos_add_sin_mul_I hθ

/-- `atan2` is invariant under scaling both arguments by a positive factor. -/
theorem atan2_mul_sin_cos {r θ : ℝ} (hr : 0 < r) (hθ : θ ∈ Set.Ioc (-π) π) :
    atan2 (r * Real.sin θ) (r * Real.cos θ) = θ := by
  have h : (⟨r * Real.cos θ, r * Real.sin θ⟩ : ℂ) =
      (r : ℂ) * ⟨Real.cos θ, Real.sin θ⟩ := by
    apply Complex.ext <;> simp [Complex.mul_re, Complex.mul_im]
  rw [atan2, h, Complex.arg_real_mul _ hr, mk_cos_sin]
  exact Complex.arg_cos_add_sin_mul_I hθ

/-- `atan2` with nonnegative second argument lies in `[-π/2, π/2]`. -/
theorem atan2_abs_le_pi_div_two {y x : ℝ} (hx : 0 ≤ x) : |atan2 y x| ≤ π / 2 := by
  rw [atan2]
  exact Complex.abs_arg_le_pi_div_two_iff.2 hx

/-- `atan2 0 x = π` for negative `x`. -/
theorem atan2_zero_neg {x : ℝ} (hx : x < 0) : atan2 0 x = π := by
  have h : (⟨x, 0⟩ : ℂ) = (x : ℝ) := by apply Complex.ext <;> simp
  rw [atan2, h]
  exact Complex.arg_ofReal_of_neg hx

/-- `atan2 0 x = 0` for nonnegative `x`. -/
theorem atan2_zero_nonneg {x : ℝ} (hx : 0 ≤ x) : atan2 0 x = 0 := by
  have h : (⟨x, 0⟩ : ℂ) = (x : ℝ) := by apply Complex.ext <;> simp
  rw [atan2, h]
  exact Complex.arg_ofReal_of_nonneg hx

/-- `atan2 1 0 = π/2`. -/
theorem atan2_one_zero : atan2 1 0 = π / 2 := by
  have h : (⟨0, 1⟩ : ℂ) = Complex.I := by apply Complex.ext <;> simp
  rw [atan2, h]
  exact Complex.arg_I

/-- `atan2 (-1) 0 = -(π/2)`. -/
theorem atan2_neg_one_zero : atan2 (-1) 0 = -(π / 2) := by
  have h : (⟨0, -1⟩ : ℂ) = -Complex.I := by apply Complex.ext <;> simp
  rw [atan2, h]
  exact Complex.arg_neg_I

/-- When `a^2 + b^2 = 1`, `atan2 a b` is an angle whose sine is `a` and whose
cosine is `b`. -/
theorem sin_cos_atan2 {a b : ℝ} (hab : a ^ 2 + b ^ 2 = 1) :
    Real.sin (atan2 a b) = a ∧ Real.cos (atan2 a b) = b := by
  have habs : Complex.abs ⟨b, a⟩ = 1 := by
    rw [Complex.abs_apply, Complex.normSq_mk]
    rw [show b * b + a * a = 1 by linear_combination hab]
    exact Real.sqrt_one
  have hne : (⟨b, a⟩ : ℂ) ≠ 0 := by
    intro h
    rw [h] at habs
    simp at habs
  constructor
  · rw [atan2, Complex.sin_arg, habs]
    simp
  · rw [atan2, Complex.cos_arg hne, habs]
    simp

/-- The entries of `create_rotation_matrix`, written out. -/
theorem create_rotation_matrix_apply (x y z : ℝ) :
    create_rotation_matrix x y z =
    !![Real.cos z * Real.cos y,
       Real.cos z * Real.sin y * Real.sin x - Real.sin z * Real.cos x,
       Real.sin z * Real.sin x + Real.cos z * Real.sin y * Real.cos x;
       Real.sin z * Real.cos y,
       Real.cos z * Real.cos x + Real.sin z * Real.sin y * Real.sin x,
       Real.sin z * Real.sin y * Real.cos x - Real.cos z * Real.sin x;
       -Real.sin y, Real.cos y * Real.sin x, Real.cos y * Real.cos x] := by
  rw [create_rotation_matrix, rot_x, rot_y, rot_z, Matrix.mul_fin_three,
    Matrix.mul_fin_three]
  congr 1
  ring_nf

/-- Entry (0,0) of the composed rotation matrix. -/
theorem crm_apply_00 (x y z : ℝ) :
    create_rotation_matrix x y z 0 0 = Real.cos z * Real.cos y := by
  rw [create_rotation_matrix_apply]; simp

/-- Entry (1,0) of the composed rotation matrix. -/
theorem crm_apply_10 (x y z : ℝ) :
    create_rotation_matrix x y z 1 0 = Real.sin z * Real.cos y := by
  rw [create_rotation_matrix_apply]; simp

/-- Entry (1,1) of the composed rotation matrix. -/
theorem crm_apply_11 (x y z : ℝ) :
    create_rotation_matrix x y z 1 1 =
      Real.cos z * Real.cos x + Real.sin z * Real.sin y * Real.sin x := by
  rw [create_rotation_matrix_apply]; simp

/-- Entry (1,2) of the composed rotation matrix. -/
theorem crm_apply_12 (x y z : ℝ) :
    create_rotation_matrix x y z 1 2 =
      Real.sin z * Real.sin y * Real.cos x - Real.cos z * Real.sin x := by
  rw [create_rotation_matrix_apply]; simp

/-- Entry (2,0) of the composed rotation matrix. -/
theorem crm_apply_20 (x y z : ℝ) :
    create_rotation_matrix x y z 2 0 = -Real.sin y := by
  rw [create_rotation_matrix_apply]; simp

/-- Entry (2,1) of the composed rotation matrix. -/
theorem crm_apply_21 (x y z : ℝ) :
    create_rotation_matrix x y z 2 1 = Real.cos y * Real.sin x := by
  rw [create_rotation_matrix_apply]; simp

/-- Entry (2,2) of the composed rotation matrix. -/
theorem crm_apply_22 (x y z : ℝ) :
    create_rotation_matrix x y z 2 2 = Real.cos y * Real.cos x := by
  rw [create_rotation_matrix_apply]; simp

/-- On the non-singular branch (`cos y` at least the `1e-6` threshold, all
angles in the principal ranges), the Euler decomposition inverts the Euler
composition exactly. -/
theorem euler_roundtrip_nonsingular (x y z : ℝ) (hx : x ∈ Set.Ioc (-π) π)
    (hz : z ∈ Set.Ioc (-π) π) (hy : y ∈ Set.Icc (-π) π)
    (hcy : (1e-6 : ℝ) ≤ Real.cos y) :
    rotation_matrix_to_euler (create_rotation_matrix x y z) = (x, y, z) := by
  have hcy0 : (0 : ℝ) < Real.cos y := lt_of_lt_of_le (by norm_num) hcy
  have hyIoc : y ∈ Set.Ioc (-π) π := by
    refine ⟨lt_of_le_of_ne hy.1 fun h => ?_, hy.2⟩
    rw [← h, Real.cos_neg, Real.cos_pi] at hcy
    norm_num at hcy
  have hsqrt : Real.sqrt
      ((Real.cos z * Real.cos y) ^ 2 + (Real.sin z * Real.cos y) ^ 2) = Real.cos y := by
    have h1 : (Real.cos z * Real.cos y) ^ 2 + (Real.sin z * Real.cos y) ^ 2
        = Real.cos y ^ 2 := by
      linear_combination Real.cos y ^ 2 * Real.sin_sq_add_cos_sq z
    rw [h1, Real.sqrt_sq_eq_abs, abs_of_pos hcy0]
  rw [rotation_matrix_to_euler, crm_apply_00, crm_apply_10, crm_apply_20,
    crm_apply_21, crm_apply_22, hsqrt]
  rw [if_neg (not_lt.2 hcy)]
  rw [neg_neg, atan2_mul_sin_cos hcy0 hx, atan2_sin_cos hyIoc]
  rw [show Real.sin z * Real.cos y = Real.cos y * Real.sin z from mul_comm _ _,
    show Real.cos z * Real.cos y = Real.cos y * Real.cos z from mul_comm _ _,
    atan2_mul_sin_cos hcy0 hz]

/-- At pitch exactly `π/2` the decomposition takes the singular branch and
returns `(atan2 (sin (x-z)-form) (cos (x-z)-form), π/2, 0)`. -/
theorem euler_gimbal_pos (x z : ℝ) :
    rotation_matrix_to_euler (create_rotation_matrix x (π / 2) z) =
      (atan2 (Real.cos z * Real.sin x - Real.sin z * Real.cos x)
        (Real.cos z * Real.cos x + Real.sin z * Real.sin x), π / 2, 0) := by
  have hzero : (Real.cos z * Real.cos (π / 2)) ^ 2
      + (Real.sin z * Real.cos (π / 2)) ^ 2 = 0 := by
    rw [Real.cos_pi_div_two]; ring
  rw [rotation_matrix_to_euler, crm_apply_00, crm_apply_10, crm_apply_20,
    crm_apply_11, crm_apply_12, hzero, Real.sqrt_zero]
  rw [if_pos (by norm_num)]
  rw [Real.sin_pi_div_two]
  rw [show (-(Real.sin z * 1 * Real.cos x - Real.cos z * Real.sin x))
      = Real.cos z * Real.sin x - Real.sin z * Real.cos x from by ring,
    show (Real.cos z * Real.cos x + Real.sin z * 1 * Real.sin x)
      = Real.cos z * Real.cos x + Real.sin z * Real.sin x from by ring,
    neg_neg, atan2_one_zero]

/-- Recomposing the angles returned at pitch `π/2` reproduces the matrix. -/
theorem gimbal_recompose_pos (x z : ℝ) :
    create_rotation_matrix
      (atan2 (Real.cos z * Real.sin x - Real.sin z * Real.cos x)
        (Real.cos z * Real.cos x + Real.sin z * Real.sin x)) (π / 2) 0 =
    create_rotation_matrix x (π / 2) z := by
  have hab : (Real.cos z * Real.sin x - Real.sin z * Real.cos x) ^ 2
      + (Real.cos z * Real.cos x + Real.sin z * Real.sin x) ^ 2 = 1 := by
    linear_combination (Real.sin z ^ 2 + Real.cos z ^ 2) * Real.sin_sq_add_cos_sq x
      + Real.sin_sq_add_cos_sq z
  obtain ⟨hsin, hcos⟩ := sin_cos_atan2 hab
  rw [create_rotation_matrix_apply, create_rotation_matrix_apply, hsin, hcos,
    Real.cos_pi_div_two, Real.sin_pi_div_two, Real.cos_zero, Real.sin_zero]
  congr 1
  ring_nf

/-- At pitch exactly `-π/2` the decomposition takes the singular branch and
returns `(atan2 (sin (x+z)-form) (cos (x+z)-form), -(π/2), 0)`. -/
theorem euler_gimbal_neg (x z : ℝ) :
    rotation_matrix_to_euler (create_rotation_matrix x (-(π / 2)) z) =
      (atan2 (Real.cos z * Real.sin x + Real.sin z * Real.cos x)
        (Real.cos z * Real.cos x - Real.sin z * Real.sin x), -(π / 2), 0) := by
  have hzero : (Real.cos z * Real.cos (-(π / 2))) ^ 2
      + (Real.sin z * Real.cos (-(π / 2))) ^ 2 = 0 := by
    rw [Real.cos_neg, Real.cos_pi_div_two]; ring
  rw [rotation_matrix_to_euler, crm_apply_00, crm_apply_10, crm_apply_20,
    crm_apply_11, crm_apply_12, hzero, Real.sqrt_zero]
  rw [if_pos (by norm_num)]
  rw [Real.sin_neg, Real.sin_pi_div_two]
  rw [show (-(Real.sin z * -1 * Real.cos x - Real.cos z * Real.sin x))
      = Real.cos z * Real.sin x + Real.sin z * Real.cos x from by ring,
    show (Real.cos z * Real.cos x + Real.sin z * -1 * Real.sin x)
      = Real.cos z * Real.cos x - Real.sin z * Real.sin x from by ring,
    show (- - -(1:ℝ)) = (-1 : ℝ) from by ring, atan2_neg_one_zero]

/-- Recomposing the angles returned at pitch exactly `-π/2` reproduces the
matrix. -/
theorem gimbal_recompose_neg (x z : ℝ) :
    create_rotation_matrix
      (atan2 (Real.cos z * Real.sin x + Real.sin z * Real.cos x)
        (Real.cos z * Real.cos x - Real.sin z * Real.sin x)) (-(π / 2)) 0 =
    create_rotation_matrix x (-(π / 2)) z := by
  have hab : (Real.cos z * Real.sin x + Real.sin z * Real.cos x) ^ 2
      + (Real.cos z * Real.cos x - Real.sin z * Real.sin x) ^ 2 = 1 := by
    linear_combination (Real.sin z ^ 2 + Real.cos z ^ 2) * Real.sin_sq_add_cos_sq x
      + Real.sin_sq_add_cos_sq z
  obtain ⟨hsin, hcos⟩ := sin_cos_atan2 hab
  rw [create_rotation_matrix_apply, create_rotation_matrix_apply, hsin, hcos,
    Real.cos_neg, Real.cos_pi_div_two, Real.sin_neg, Real.sin_pi_div_two,
    Real.cos_zero, Real.sin_zero]
  congr 1
  ring_nf

/-- The spec's standard right-handed elementary rotation matrix about X. -/
noncomputable def Rx_std (θ : ℝ) : Matrix (Fin 3) (Fin 3) ℝ :=
  !![1, 0, 0;
     0, Real.cos θ, -Real.sin θ;
     0, Real.sin θ, Real.cos θ]

/-- The spec's standard right-handed elementary rotation matrix about Y. -/
noncomputable def Ry_std (θ : ℝ) : Matrix (Fin 3) (Fin 3) ℝ :=
  !![Real.cos θ, 0, Real.sin θ;
     0, 1, 0;
     -Real.sin θ, 0, Real.cos θ]

/-- The spec's standard right-handed elementary rotation matrix about Z. -/
noncomputable def Rz_std (θ : ℝ) : Matrix (Fin 3) (Fin 3) ℝ :=
  !![Real.cos θ, -Real.sin θ, 0;
     Real.sin θ, Real.cos θ, 0;
     0, 0, 1]

/-- C2: `create_rotation_matrix` builds the standard right-handed elementary
rotations `Rx`, `Ry`, `Rz` and composes them with `Rz` as the leftmost
(outermost) factor: the result equals `Rz · Ry · Rx`, in either grouping. -/
theorem c2_composition_order (x y z : ℝ) :
    rot_x x = Rx_std x ∧ rot_y y = Ry_std y ∧ rot_z z = Rz_std z ∧
    create_rotation_matrix x y z = Rz_std z * Ry_std y * Rx_std x ∧
    create_rotation_matrix x y z = Rz_std z * (Ry_std y * Rx_std x) := by
  refine ⟨rfl, rfl, rfl, rfl, ?_⟩
  rw [create_rotation_matrix, mul_assoc]
  rfl

/-- C10: the pitch (second component) returned by `rotation_matrix_to_euler`
always lies in the closed interval `[-π/2, π/2]`, because it is
`atan2 (-m[2][0]) sy` with `sy = sqrt(m[0][0]^2 + m[1][0]^2) ≥ 0`. -/
theorem c10_pitch_in_range (m : Matrix (Fin 3) (Fin 3) ℝ) :
    (rotation_matrix_to_euler m).2.1 ∈ Set.Icc (-(π / 2)) (π / 2) := by
  have key : ∀ yv xv : ℝ, 0 ≤ xv → atan2 yv xv ∈ Set.Icc (-(π / 2)) (π / 2) := by
    intro yv xv hxv
    have h := @atan2_abs_le_pi_div_two yv xv hxv
    exact Set.mem_Icc.2 (abs_le.1 h)
  rw [rotation_matrix_to_euler]
  split
  · exact key _ _ (Real.sqrt_nonneg _)
  · exact key _ _ (Real.sqrt_nonneg _)

/-- C1 (counterexample): the input `(0, π, 0)` has every component in
`[-π, π]` and its pitch `π` is far from both gimbal-lock pitches `±π/2`
(distance at least 1), yet the round trip returns `(π, 0, π)`, whose pitch
differs from the input pitch by more than `1e-6`. -/
theorem c1_roundtrip_counterexample :
    rotation_matrix_to_euler (create_rotation_matrix 0 π 0) = (π, 0, π) ∧
    (0 : ℝ) ∈ Set.Icc (-π) π ∧ π ∈ Set.Icc (-π) π ∧
    (1e-6 : ℝ) < |(0 : ℝ) - π| ∧
    (1 : ℝ) ≤ |π - π / 2| ∧ (1 : ℝ) ≤ |π - -(π / 2)| := by
  have hπ := Real.pi_gt_three
  refine ⟨?_, ?_, ?_, ?_, ?_, ?_⟩
  · rw [rotation_matrix_to_euler, crm_apply_00, crm_apply_10, crm_apply_20,
      crm_apply_21, crm_apply_22, Real.cos_pi, Real.sin_pi, Real.cos_zero,
      Real.sin_zero]
    rw [show ((1 : ℝ) * -1) ^ 2 + ((0 : ℝ) * -1) ^ 2 = 1 from by norm_num,
      Real.sqrt_one]
    rw [if_neg (by norm_num : ¬((1 : ℝ) < 1e-6))]
    rw [show ((-1 : ℝ) * 0) = 0 from by norm_num,
      show ((-1 : ℝ) * 1) = -1 from by norm_num,
      show ((0 : ℝ) * -1) = 0 from by norm_num,
      show ((1 : ℝ) * -1) = -1 from by norm_num,
      show (- -(0 : ℝ)) = 0 from by norm_num]
    rw [atan2_zero_neg (by norm_num : (-1 : ℝ) < 0),
      atan2_zero_nonneg (by norm_num : (0 : ℝ) ≤ 1)]
  · exact Set.mem_Icc.2 ⟨by linarith, by linarith⟩
  · exact Set.mem_Icc.2 ⟨by linarith, le_refl _⟩
  · rw [zero_sub, abs_neg, abs_of_pos (by linarith)]
    linarith
  · rw [show π - π / 2 = π / 2 from by ring, abs_of_pos (by linarith)]
    linarith
  · rw [show π - -(π / 2) = 3 / 2 * π from by ring, abs_of_pos (by linarith)]
    linarith

/-- C1 (amended): restricted away from the gimbal band — pitch in `[-π, π]`
with `cos y` at least the code's `1e-6` singularity threshold, roll and yaw in
the principal range `(-π, π]` — the Euler decomposition inverts the Euler
composition exactly; and at exact gimbal lock (pitch `±π/2`) the rotation
matrix recomposed from the returned angles equals the original matrix. -/
theorem c1_roundtrip_amended :
    (∀ x y z : ℝ, x ∈ Set.Ioc (-π) π → z ∈ Set.Ioc (-π) π →
      y ∈ Set.Icc (-π) π → (1e-6 : ℝ) ≤ Real.cos y →
      rotation_matrix_to_euler (create_rotation_matrix x y z) = (x, y, z)) ∧
    (∀ x z : ℝ,
      create_rotation_matrix
        (rotation_matrix_to_euler (create_rotation_matrix x (π / 2) z)).1
        (rotation_matrix_to_euler (create_rotation_matrix x (π / 2) z)).2.1
        (rotation_matrix_to_euler (create_rotation_matrix x (π / 2) z)).2.2
      = create_rotation_matrix x (π / 2) z) ∧
    (∀ x z : ℝ,
      create_rotation_matrix
        (rotation_matrix_to_euler (create_rotation_matrix x (-(π / 2)) z)).1
        (rotation_matrix_to_euler (create_rotation_matrix x (-(π / 2)) z)).2.1
        (rotation_matrix_to_euler (create_rotation_matrix x (-(π / 2)) z)).2.2
      = create_rotation_matrix x (-(π / 2)) z) := by
  refine ⟨euler_roundtrip_nonsingular, ?_, ?_⟩
  · intro x z
    rw [euler_gimbal_pos]
    exact gimbal_recompose_pos x z
  · intro x z
    rw [euler_gimbal_neg]
    exact gimbal_recompose_neg x z

/-- Witness for C1: at the concrete input `(0, 0, 0)` the hypotheses hold and
the round trip returns `(0, 0, 0)`. -/
theorem c1_roundtrip_amended_witness :
    ((0 : ℝ) ∈ Set.Ioc (-π) π) ∧ ((0 : ℝ) ∈ Set.Icc (-π) π) ∧
    ((1e-6 : ℝ) ≤ Real.cos 0) ∧
    rotation_matrix_to_euler (create_rotation_matrix 0 0 0) = (0, 0, 0) := by
  have hπ := Real.pi_gt_three
  have h1 : (0 : ℝ) ∈ Set.Ioc (-π) π := Set.mem_Ioc.2 ⟨by linarith, by linarith⟩
  have h2 : (0 : ℝ) ∈ Set.Icc (-π) π := Set.mem_Icc.2 ⟨by linarith, by linarith⟩
  have h3 : (1e-6 : ℝ) ≤ Real.cos 0 := by rw [Real.cos_zero]; norm_num
  exact ⟨h1, h2, h3, c1_roundtrip_amended.1 0 0 0 h1 h1 h2 h3⟩

/-! ## JSON state model

`json.loads` produces Python values; the fragment the importer touches is
modelled by `JValue` (numbers as rationals).  `pyGet` models `dict.get(k, d)`
(an `AttributeError` on a non-dict receiver is `none`); `pyIndex` models
`v[i]` (an `IndexError` or `TypeError` is `none`; single-character results of
string indexing can only feed the always-out-of-range second index in
`get_camera_transform`, so they are folded into the failure case);
`JValue.falsy` models Python truthiness. -/

inductive JValue where
  | jnull : JValue
  | jbool : Bool → JValue
  | jnum : ℚ → JValue
  | jstr : String → JValue
  | jarr : List JValue → JValue
  | jobj : List (String × JValue) → JValue

/-- Python truthiness of a JSON value. -/
def JValue.falsy : JValue → Bool
  | .jnull => true
  | .jbool b => !b
  | .jnum q => q == 0
  | .jstr s => s.isEmpty
  | .jarr l => l.isEmpty
  | .jobj fs => fs.isEmpty

/-- `d.get(k, dflt)` on a parsed JSON value. -/
def pyGet : JValue → String → JValue → Option JValue
  | .jobj fs, k, dflt => some ((fs.lookup k).getD dflt)
  | _, _, _ => none

/-- `v[i]` on a parsed JSON value. -/
def pyIndex : JValue → Nat → Option JValue
  | .jarr l, i => l.get? i
  | _, _ => none

/-- The default `rows` value in `get_camera_transform`: the 4x4 identity. -/
def identityRows : JValue :=
  .jarr [.jarr [.jnum 1, .jnum 0, .jnum 0, .jnum 0],
         .jarr [.jnum 0, .jnum 1, .jnum 0, .jnum 0],
         .jarr [.jnum 0, .jnum 0, .jnum 1, .jnum 0],
         .jarr [.jnum 0, .jnum 0, .jnum 0, .jnum 1]]

/-- The position expression `[rows[0][3], rows[1][3], rows[2][3]]` of
`get_camera_transform`. -/
def readPosition (rows : JValue) : Option (List JValue) := do
  let r0 ← pyIndex rows 0
  let p0 ← pyIndex r0 3
  let r1 ← pyIndex rows 1
  let p1 ← pyIndex r1 3
  let r2 ← pyIndex rows 2
  let p2 ← pyIndex r2 3
  pure [p0, p1, p2]

/-- Row `i` of the rotation comprehension
`[[rows[i][j] for j in range(3)] for i in range(3)]`. -/
def readRotationRow (rows : JValue) (i : Nat) : Option (List JValue) := do
  let ri ← pyIndex rows i
  let a ← pyIndex ri 0
  let b ← pyIndex ri 1
  let c ← pyIndex ri 2
  pure [a, b, c]

/-- `FSpyParser.get_camera_transform`: reads
`state_data.get('cameraParameters', {})`, raising when it is falsy, reads
`cameraTransform.rows` with the 4x4 identity as default, and returns the
position column `rows[i][3]` together with the upper-left 3x3 block.  Any
exception inside the `try` is caught and reported as `none`. -/
def get_camera_transform (state_data : JValue) :
    Option (List JValue × List (List JValue)) := do
  let camera_parameters ← pyGet state_data "cameraParameters" (.jobj [])
  if camera_parameters.falsy then none else do
  let transform ← pyGet camera_parameters "cameraTransform" (.jobj [])
  let rows ← pyGet transform "rows" identityRows
  let position ← readPosition rows
  let row0 ← readRotationRow rows 0
  let row1 ← readRotationRow rows 1
  let row2 ← readRotationRow rows 2
  pure (position, [row0, row1, row2])

/-! ## Binary container parser

`FSpyParser.parse` reads from the open file: 4 magic bytes, three 4-byte
little-endian integers (version, state size, image size), the state block
(NUL bytes stripped, then decoded as UTF-8 JSON — modelled by the abstract
`decode` argument), then the image block.  Python's `f.read(n)` returns up to
`n` bytes without error, while `struct.unpack` raises on a short buffer and
the magic comparison raises `ValueError` on mismatch; every exception is
caught by the surrounding `try`, logged once at error level, and turned into
a `False` return with `self.state_data` / `self.image_data` never assigned. -/

/-- The four ASCII bytes `f`, `s`, `p`, `y`. -/
def fspyMagic : List Nat := [102, 115, 112, 121]

/-- `struct.unpack('<I', ·)` on exactly four bytes. -/
def leU32 : List Nat → Nat
  | [b0, b1, b2, b3] => b0 + 256 * b1 + 65536 * b2 + 16777216 * b3
  | _ => 0

/-- Outcome of `FSpyParser.parse`: the returned boolean, the two instance
fields, the error-level log messages, and how many input bytes were read. -/
structure ParseResult where
  success : Bool
  state_data : Option JValue
  image_data : Option (List Nat)
  errors : List String
  consumed : Nat

/-- `FSpyParser.parse`, over an abstract JSON decoder and a byte stream. -/
def parse (decode : List Nat → Option JValue) (input : List Nat) : ParseResult :=
  if input.take 4 ≠ fspyMagic then
    ⟨false, none, none, ["Failed to parse fSpy file: Invalid fSpy file format"],
      min 4 input.length⟩
  else if (input.drop 4).length < 4 then
    ⟨false, none, none, ["Failed to parse fSpy file: struct.error"], input.length⟩
  else if (input.drop 8).length < 4 then
    ⟨false, none, none, ["Failed to parse fSpy file: struct.error"], input.length⟩
  else if (input.drop 12).length < 4 then
    ⟨false, none, none, ["Failed to parse fSpy file: struct.error"], input.length⟩
  else
    match decode (((input.drop 16).take (leU32 ((input.drop 8).take 4))).filter
        (fun b => b != 0)) with
    | none =>
      ⟨false, none, none, ["Failed to parse fSpy file: invalid state json"],
        min input.length (16 + leU32 ((input.drop 8).take 4))⟩
    | some st =>
      ⟨true, some st,
        some (((input.drop 16).drop (leU32 ((input.drop 8).take 4))).take
          (leU32 ((input.drop 12).take 4))),
        [],
        min input.length
          (16 + leU32 ((input.drop 8).take 4) + leU32 ((input.drop 12).take 4))⟩

/-- C3: when the first four bytes of the file are not `fspy`, `parse` reports
failure (returning `False`, not raising), logs exactly the format error, and
consumes no bytes beyond the first four; the container fields stay unset. -/
theorem c3_bad_magic (decode : List Nat → Option JValue) (input : List Nat)
    (h : input.take 4 ≠ fspyMagic) :
    (parse decode input).success = false ∧
    (parse decode input).state_data = none ∧
    (parse decode input).image_data = none ∧
    (parse decode input).errors =
      ["Failed to parse fSpy file: Invalid fSpy file format"] ∧
    (parse decode input).consumed ≤ 4 := by
  rw [parse, if_pos h]
  exact ⟨rfl, rfl, rfl, rfl, min_le_left _ _⟩

/-- Witness for C3 at the concrete input `[0,0,0,0]`. -/
theorem c3_bad_magic_witness :
    (([0, 0, 0, 0] : List Nat).take 4 ≠ fspyMagic) ∧
    ((parse (fun _ => none) [0, 0, 0, 0]).success = false ∧
      (parse (fun _ => none) [0, 0, 0, 0]).consumed ≤ 4) := by
  have h : (([0, 0, 0, 0] : List Nat).take 4 ≠ fspyMagic) := by decide
  have hc := c3_bad_magic (fun _ => none) [0, 0, 0, 0] h
  exact ⟨h, hc.1, hc.2.2.2.2⟩

/-- C4: whenever `parse` fails — bad magic, short header, undecodable state
block — it returns failure (never propagating the exception), logs exactly one
error carrying the cause, and leaves both `state_data` and `image_data` in
their initial `None` state. -/
theorem c4_failure_unset (decode : List Nat → Option JValue) (input : List Nat) :
    (parse decode input).success = false →
    (parse decode input).state_data = none ∧
    (parse decode input).image_data = none ∧
    (parse decode input).errors.length = 1 := by
  rw [parse]
  split_ifs
  · intro _; exact ⟨rfl, rfl, rfl⟩
  · intro _; exact ⟨rfl, rfl, rfl⟩
  · intro _; exact ⟨rfl, rfl, rfl⟩
  · intro _; exact ⟨rfl, rfl, rfl⟩
  · split
    · intro _; exact ⟨rfl, rfl, rfl⟩
    · intro h; simp at h

/-- Witness for C4 at the concrete failing input `[1, 2, 3]`. -/
theorem c4_failure_unset_witness :
    (parse (fun _ => none) [1, 2, 3]).success = false ∧
    ((parse (fun _ => none) [1, 2, 3]).state_data = none ∧
      (parse (fun _ => none) [1, 2, 3]).image_data = none ∧
      (parse (fun _ => none) [1, 2, 3]).errors.length = 1) :=
  ⟨rfl, c4_failure_unset (fun _ => none) [1, 2, 3] rfl⟩

/-- Helper: with `cameraParameters` present and non-empty and
`cameraTransform.rows` absent (either `cameraTransform` itself absent, or
present as a mapping without `rows`), `get_camera_transform` returns the
default position and rotation coming from the 4x4 identity. -/
theorem gct_rows_absent_default (fields cp : List (String × JValue))
    (hcp : fields.lookup "cameraParameters" = some (.jobj cp))
    (hne : cp ≠ [])
    (hrows : cp.lookup "cameraTransform" = none ∨
      ∃ ct : List (String × JValue),
        cp.lookup "cameraTransform" = some (.jobj ct) ∧ ct.lookup "rows" = none) :
    get_camera_transform (.jobj fields) =
      some ([.jnum 0, .jnum 0, .jnum 0],
        [[.jnum 1, .jnum 0, .jnum 0],
         [.jnum 0, .jnum 1, .jnum 0],
         [.jnum 0, .jnum 0, .jnum 1]]) := by
  cases cp with
  | nil => exact absurd rfl hne
  | cons hd tl =>
    rcases hrows with hct | ⟨ct, hct, hr⟩
    · simp [get_camera_transform, pyGet, hcp, hct, identityRows,
        readPosition, readRotationRow, pyIndex, JValue.falsy]
    · simp [get_camera_transform, pyGet, hcp, hct, hr, identityRows,
        readPosition, readRotationRow, pyIndex, JValue.falsy]

/-- C5: for a parsed state whose `cameraParameters` is present and non-empty
but whose `cameraTransform.rows` is absent, `get_camera_transform` succeeds
and returns position `(0, 0, 0)` and the 3x3 identity rotation matrix — the
silent 4x4-identity fallback. -/
theorem c5_missing_rows_identity (fields cp : List (String × JValue))
    (hcp : fields.lookup "cameraParameters" = some (.jobj cp))
    (hne : cp ≠ [])
    (hrows : cp.lookup "cameraTransform" = none ∨
      ∃ ct : List (String × JValue),
        cp.lookup "cameraTransform" = some (.jobj ct) ∧ ct.lookup "rows" = none) :
    get_camera_transform (.jobj fields) =
      some ([.jnum 0, .jnum 0, .jnum 0],
        [[.jnum 1, .jnum 0, .jnum 0],
         [.jnum 0, .jnum 1, .jnum 0],
         [.jnum 0, .jnum 0, .jnum 1]]) :=
  gct_rows_absent_default fields cp hcp hne hrows

/-- Witness for C5 at a concrete state with `cameraParameters` holding only an
`imageWidth` entry. -/
theorem c5_missing_rows_identity_witness :
    (([("cameraParameters", JValue.jobj [("imageWidth", JValue.jnum 1920)])] :
        List (String × JValue)).lookup "cameraParameters" =
      some (.jobj [("imageWidth", JValue.jnum 1920)])) ∧
    (([("imageWidth", JValue.jnum 1920)] : List (String × JValue)) ≠ []) ∧
    (([("imageWidth", JValue.jnum 1920)] : List (String × JValue)).lookup
      "cameraTransform" = none) ∧
    get_camera_transform
      (.jobj [("cameraParameters", .jobj [("imageWidth", .jnum 1920)])]) =
      some ([.jnum 0, .jnum 0, .jnum 0],
        [[.jnum 1, .jnum 0, .jnum 0],
         [.jnum 0, .jnum 1, .jnum 0],
         [.jnum 0, .jnum 0, .jnum 1]]) := by
  refine ⟨rfl, by simp, rfl, ?_⟩
  exact c5_missing_rows_identity _ _ rfl (by simp) (Or.inl rfl)

/-- C6 (counterexample): a state whose `cameraParameters` key is present but
maps to an empty mapping makes `get_camera_transform` fail (`None`), refuting
"fails only if cameraParameters is entirely absent / succeeds regardless of
its contents". -/
theorem c6_present_empty_counterexample :
    (([("cameraParameters", JValue.jobj [])] : List (String × JValue)).lookup
      "cameraParameters" = some (.jobj [])) ∧
    get_camera_transform (.jobj [("cameraParameters", .jobj [])]) = none := by
  constructor
  · rfl
  · rfl

/-- C6 (amended): `get_camera_transform` fails when `cameraParameters` is
absent or falsy (in particular when it is present but empty); and for every
state whose `cameraParameters` is a non-empty mapping and whose
`cameraTransform.rows` substructure is either absent or a well-formed 4x4
grid, derivation succeeds. -/
theorem c6_derivation_failure_amended :
    (∀ fields : List (String × JValue),
      fields.lookup "cameraParameters" = none →
      get_camera_transform (.jobj fields) = none) ∧
    (∀ (fields : List (String × JValue)) (v : JValue),
      fields.lookup "cameraParameters" = some v → v.falsy = true →
      get_camera_transform (.jobj fields) = none) ∧
    (∀ (fields cp : List (String × JValue)),
      fields.lookup "cameraParameters" = some (.jobj cp) → cp ≠ [] →
      (cp.lookup "cameraTransform" = none ∨
        ∃ ct : List (String × JValue),
          cp.lookup "cameraTransform" = some (.jobj ct) ∧
          ct.lookup "rows" = none) →
      ∃ r, get_camera_transform (.jobj fields) = some r) ∧
    (∀ (fields cp ct : List (String × JValue))
      (a00 a01 a02 a03 a10 a11 a12 a13 a20 a21 a22 a23 a30 a31 a32 a33 : JValue),
      fields.lookup "cameraParameters" = some (.jobj cp) → cp ≠ [] →
      cp.lookup "cameraTransform" = some (.jobj ct) →
      ct.lookup "rows" = some (.jarr
        [.jarr [a00, a01, a02, a03], .jarr [a10, a11, a12, a13],
         .jarr [a20, a21, a22, a23], .jarr [a30, a31, a32, a33]]) →
      get_camera_transform (.jobj fields) =
        some ([a03, a13, a23],
          [[a00, a01, a02], [a10, a11, a12], [a20, a21, a22]])) := by
  refine ⟨?_, ?_, ?_, ?_⟩
  · intro fields h
    simp [get_camera_transform, pyGet, h, JValue.falsy]
  · intro fields v h hf
    simp [get_camera_transform, pyGet, h, hf]
  · intro fields cp hcp hne hrows
    exact ⟨_, gct_rows_absent_default fields cp hcp hne hrows⟩
  · intro fields cp ct a00 a01 a02 a03 a10 a11 a12 a13 a20 a21 a22 a23
      a30 a31 a32 a33 hcp hne hct hr
    cases cp with
    | nil => exact absurd rfl hne
    | cons hd tl =>
      simp [get_camera_transform, pyGet, hcp, hct, hr,
        readPosition, readRotationRow, pyIndex, JValue.falsy]

/-- Witness for C6 at concrete states: the empty state fails, and a state
with a well-formed 4x4 grid succeeds with the grid's own entries. -/
theorem c6_derivation_failure_amended_witness :
    (([] : List (String × JValue)).lookup "cameraParameters" = none) ∧
    get_camera_transform (.jobj []) = none ∧
    get_camera_transform (.jobj [("cameraParameters", .jobj [("cameraTransform",
      .jobj [("rows", .jarr
        [.jarr [.jnum 1, .jnum 0, .jnum 0, .jnum 5],
         .jarr [.jnum 0, .jnum 1, .jnum 0, .jnum 6],
         .jarr [.jnum 0, .jnum 0, .jnum 1, .jnum 7],
         .jarr [.jnum 0, .jnum 0, .jnum 0, .jnum 1]])])])]) =
      some ([.jnum 5, .jnum 6, .jnum 7],
        [[.jnum 1, .jnum 0, .jnum 0],
         [.jnum 0, .jnum 1, .jnum 0],
         [.jnum 0, .jnum 0, .jnum 1]]) := by
  refine ⟨rfl, c6_derivation_failure_amended.1 [] rfl, ?_⟩
  exact c6_derivation_failure_amended.2.2.2 _ _ _
    (.jnum 1) (.jnum 0) (.jnum 0) (.jnum 5)
    (.jnum 0) (.jnum 1) (.jnum 0) (.jnum 6)
    (.jnum 0) (.jnum 0) (.jnum 1) (.jnum 7)
    (.jnum 0) (.jnum 0) (.jnum 0) (.jnum 1)
    rfl (by simp) rfl rfl

/-! ## Camera intrinsics derivation

`PluginDialog.import_camera` (film back, lines 486-499; film offset, lines
501-511) and `PluginDialog.update_camera_info` (image size, lines 355-356;
focal length, lines 381-386) both derive intrinsics from the
`cameraParameters` mapping.  The spec's `deriveIntrinsics` abstraction
combines the focal-length rule of `update_camera_info` with the aperture
rule of `import_camera`. -/

/-- Python `float(·)` on the JSON values the importer feeds it (numbers and
booleans convert; the schema never passes strings here, and non-convertible
values raise). -/
noncomputable def pyFloat : JValue → Option ℝ
  | .jnum q => some (q : ℝ)
  | .jbool b => some (if b then 1 else 0)
  | _ => none

/-- Python float division: raises `ZeroDivisionError` on a zero divisor. -/
noncomputable def pydiv (a b : ℝ) : Option ℝ :=
  if b = 0 then none else some (a / b)

/-- Image size as read by `import_camera`:
`float(params.get('imageWidth', 1920))`, `float(params.get('imageHeight', 1080))`. -/
noncomputable def import_camera_size (params : List (String × JValue)) :
    Option (ℝ × ℝ) := do
  let w ← pyFloat ((params.lookup "imageWidth").getD (.jnum 1920))
  let h ← pyFloat ((params.lookup "imageHeight").getD (.jnum 1080))
  pure (w, h)

/-- Image size as read by `update_camera_info`: the height default is 1920
there, not 1080. -/
noncomputable def update_camera_info_size (params : List (String × JValue)) :
    Option (ℝ × ℝ) := do
  let w ← pyFloat ((params.lookup "imageWidth").getD (.jnum 1920))
  let h ← pyFloat ((params.lookup "imageHeight").getD (.jnum 1920))
  pure (w, h)

/-- Focal length as computed by `update_camera_info`: 35.0 by default, and
`(36/2) / tan(horizontalFieldOfView / 2)` when the field of view is present
and not null. -/
noncomputable def update_camera_info_focal (params : List (String × JValue)) :
    Option ℝ :=
  match (params.lookup "horizontalFieldOfView").getD .jnull with
  | .jnull => some 35
  | v => (pyFloat v).bind fun fov => pydiv (36 / 2) (Real.tan (fov / 2))

/-- Film back in inches as computed by `import_camera`: horizontal aperture
fixed at 36 mm, vertical aperture `36 / (width / height)`, both scaled by
`mm_to_inch = 0.0393701`. -/
noncomputable def import_camera_film_back (params : List (String × JValue)) :
    Option (ℝ × ℝ) := do
  let wh ← import_camera_size params
  let aspect ← pydiv wh.1 wh.2
  let vmm ← pydiv 36 aspect
  pure (36 * 0.0393701, vmm * 0.0393701)

/-- Film offset in inches as computed by `import_camera`: only when
`principalPoint` is a 2-element list does it set
`(pp[0] * 36 * mm_to_inch, pp[1] * vert_mm * mm_to_inch)`; any other shape
(including the `{x, y}` mapping form) silently sets nothing (`some none`). -/
noncomputable def import_camera_film_offset (params : List (String × JValue)) :
    Option (Option (ℝ × ℝ)) := do
  let wh ← import_camera_size params
  let aspect ← pydiv wh.1 wh.2
  let vmm ← pydiv 36 aspect
  match (params.lookup "principalPoint").getD (.jarr [.jnum 0, .jnum 0]) with
  | .jarr [p0, p1] => do
      let a ← pyFloat p0
      let b ← pyFloat p1
      pure (some (a * 36 * 0.0393701, b * vmm * 0.0393701))
  | _ => pure none

/-- Principal point as displayed by `update_camera_info`: accepted (shown)
only in the `{x, y}` mapping form, with 0 defaults; a list-shaped value is
silently not displayed. No offsets are computed on this path. -/
noncomputable def update_camera_info_pp (params : List (String × JValue)) :
    Option (Option (ℝ × ℝ)) :=
  match (params.lookup "principalPoint").getD
      (.jobj [("x", .jnum 0), ("y", .jnum 0)]) with
  | .jobj fs =>
      (pyFloat ((fs.lookup "x").getD (.jnum 0))).bind fun a =>
      (pyFloat ((fs.lookup "y").getD (.jnum 0))).bind fun b =>
      some (some (a, b))
  | _ => some none

/-- The derived intrinsics record of the spec. -/
structure CameraIntrinsics where
  focalLengthMm : ℝ
  horizontalApertureInch : ℝ
  verticalApertureInch : ℝ

/-- The spec's `deriveIntrinsics`: focal length per `update_camera_info`
(lines 381-386), apertures per `import_camera` (lines 486-495). -/
noncomputable def deriveIntrinsics (params : List (String × JValue)) :
    Option CameraIntrinsics := do
  let fb ← import_camera_film_back params
  let focal ← update_camera_info_focal params
  pure ⟨focal, fb.1, fb.2⟩

/-- C7: with `imageWidth = 1920`, `imageHeight = 1080` and
`horizontalFieldOfView` absent, the derived intrinsics are
`focalLengthMm = 35.0`, `horizontalApertureInch = 36 * 0.0393701` and
`verticalApertureInch = (36 / (1920/1080)) * 0.0393701`. -/
theorem c7_default_intrinsics :
    deriveIntrinsics [("imageWidth", .jnum 1920), ("imageHeight", .jnum 1080)] =
      some ⟨35, 36 * 0.0393701, 36 / (1920 / 1080) * 0.0393701⟩ := by
  simp [deriveIntrinsics, import_camera_film_back, import_camera_size,
    update_camera_info_focal, pyFloat, pydiv, List.lookup]

/-- C8 (counterexample): with `principalPoint` given in its `{x, y}` mapping
form, the import path computes no film offsets at all (`some none`), rather
than the offsets `pp[0]·hAp·0.0393701`, `pp[1]·vAp·0.0393701` the claim
requires in both forms. -/
theorem c8_dict_form_counterexample :
    import_camera_film_offset
      [("principalPoint", .jobj [("x", .jnum (1 / 2)), ("y", .jnum (1 / 2))])] =
      some none ∧
    (some (none : Option (ℝ × ℝ)) ≠
      some (some ((1 / 2 : ℝ) * 36 * 0.0393701,
        (1 / 2 : ℝ) * (36 / (1920 / 1080)) * 0.0393701))) := by
  constructor
  · simp [import_camera_film_offset, import_camera_size, pyFloat, pydiv,
      List.lookup]
  · simp

/-- C8 (amended): the film offsets `pp[0]·36·0.0393701` and
`pp[1]·(36/(w/h))·0.0393701` are computed by the import path only when
`principalPoint` is a 2-element ordered pair; the `{x, y}` mapping form is
accepted without error but produces no offsets there, and is the form the
info-display path shows (without computing offsets). -/
theorem c8_principal_point_amended :
    (∀ (a b w h : ℚ), w ≠ 0 → h ≠ 0 →
      import_camera_film_offset
        [("imageWidth", .jnum w), ("imageHeight", .jnum h),
         ("principalPoint", .jarr [.jnum a, .jnum b])] =
        some (some ((a : ℝ) * 36 * 0.0393701,
          (b : ℝ) * (36 / ((w : ℝ) / (h : ℝ))) * 0.0393701))) ∧
    (∀ a b : ℚ,
      import_camera_film_offset
        [("principalPoint", .jobj [("x", .jnum a), ("y", .jnum b)])] =
        some none) ∧
    (∀ a b : ℚ,
      update_camera_info_pp
        [("principalPoint", .jobj [("x", .jnum a), ("y", .jnum b)])] =
        some (some ((a : ℝ), (b : ℝ)))) := by
  refine ⟨?_, ?_, ?_⟩
  · intro a b w h hw hh
    have hw' : (w : ℝ) ≠ 0 := Rat.cast_ne_zero.2 hw
    have hh' : (h : ℝ) ≠ 0 := Rat.cast_ne_zero.2 hh
    have hasp : (w : ℝ) / (h : ℝ) ≠ 0 := div_ne_zero hw' hh'
    simp [import_camera_film_offset, import_camera_size, pyFloat, pydiv,
      List.lookup, hw', hh', hasp]
  · intro a b
    simp [import_camera_film_offset, import_camera_size, pyFloat, pydiv,
      List.lookup]
  · intro a b
    simp [update_camera_info_pp, pyFloat, List.lookup]

/-- Witness for C8 at `principalPoint = [1/2, 1/2]`, `1920x1080`. -/
theorem c8_principal_point_amended_witness :
    ((1920 : ℚ) ≠ 0) ∧ ((1080 : ℚ) ≠ 0) ∧
    import_camera_film_offset
      [("imageWidth", .jnum 1920), ("imageHeight", .jnum 1080),
       ("principalPoint", .jarr [.jnum (1 / 2), .jnum (1 / 2)])] =
      some (some (((1 / 2 : ℚ) : ℝ) * 36 * 0.0393701,
        ((1 / 2 : ℚ) : ℝ) * (36 / (((1920 : ℚ) : ℝ) / ((1080 : ℚ) : ℝ))) *
          0.0393701)) := by
  refine ⟨by norm_num, by norm_num, ?_⟩
  exact c8_principal_point_amended.1 (1 / 2) (1 / 2) 1920 1080
    (by norm_num) (by norm_num)

/-- C9 (source divergence): with `imageWidth` and `imageHeight` both absent,
the import path defaults the size to 1920x1080, but the info-display path
defaults it to 1920x1920 — the two call sites disagree on the height
default, and only the import path matches the claimed 1920x1080. -/
theorem c9_default_height_divergence :
    update_camera_info_size [] = some (1920, 1920) ∧
    import_camera_size [] = some (1920, 1080) := by
  constructor
  · simp [update_camera_info_size, pyFloat, List.lookup]
  · simp [import_camera_size, pyFloat, List.lookup]
